import Mathlib

/-!
# Task Lists table creator: log buffer, schema descriptor and HTTP handlers

A shallow embedding of `src/index.js`.

* JavaScript values that travel through the handlers (request payloads,
  response bodies, remote bodies) are terms of `JsValue`.
* The module-level array `logs` and the console stream form the `State`.
* `new Date().toISOString()` is a reading of the wall clock: every call of
  `log` receives the timestamp it reads as an argument.
* Built-ins of the JavaScript engine whose output text depends on the engine
  (`String.prototype.toUpperCase`, `JSON.stringify`, template-literal
  coercion, the message of a `TypeError`) are collected in `Runtime`.
* A handler that awaits an axios call is split at the `await`: the part that
  runs before the request is sent, and the part that runs once the remote
  call has settled.  Other handlers may append to `logs` in between.
-/

set_option autoImplicit false

namespace TaskLists

/-! ## JavaScript values -/

/-- JavaScript values as they occur in object literals and parsed response bodies.
Finite numbers are rationals; the properties of an object are kept in insertion order. -/
inductive JsValue where
  | undefined : JsValue
  | null : JsValue
  | bool (b : Bool) : JsValue
  | number (n : Rat) : JsValue
  | string (s : String) : JsValue
  | array (items : List JsValue) : JsValue
  | object (props : List (String × JsValue)) : JsValue

/-- The `length` of a JavaScript string: its number of UTF-16 code units. -/
def utf16Length (s : String) : Nat :=
  s.data.foldl (fun n c => if c.val.toNat < 65536 then n + 1 else n + 2) 0

/-- Property read `v.key` for the keys the program reads (`tables`, `length`, `id`,
`name`, `fields`, and the keys of its own object literals).  The result `none`
stands for the `TypeError` raised when `v` is `undefined` or `null`. -/
def JsValue.get (v : JsValue) (key : String) : Option JsValue :=
  match v with
  | .undefined => none
  | .null => none
  | .bool _ => some .undefined
  | .number _ => some .undefined
  | .string s => some (if key = "length" then .number (utf16Length s) else .undefined)
  | .array items => some (if key = "length" then .number items.length else .undefined)
  | .object props => some ((props.lookup key).getD .undefined)

/-- Built-ins of the JavaScript engine used by the program. -/
structure Runtime where
  /-- The method `String.prototype.toUpperCase`. -/
  toUpperCase : String → String
  /-- The text that `JSON.stringify(v)` contributes to a template literal. -/
  jsonStringify : JsValue → String
  /-- The text that a value contributes to a template literal. -/
  toStr : JsValue → String
  /-- The message of the `TypeError` raised by reading property `key` of `v`. -/
  typeErrorMessage : JsValue → String → String

/-! ## Logging system (`src/index.js`, lines 10-19) -/

/-- One record of the array `logs`: the object literal built in `log`. -/
structure LogEntry where
  timestamp : String
  message : String
  type : String
  deriving DecidableEq, Repr

/-- The entry as the JavaScript object stored in `logs`. -/
def LogEntry.toJs (e : LogEntry) : JsValue :=
  .object [("timestamp", .string e.timestamp), ("message", .string e.message),
    ("type", .string e.type)]

/-- The mutable state of the process: the array `logs` and the lines written to the console. -/
structure State where
  logs : List LogEntry
  console : List String
  deriving DecidableEq, Repr

/-- The state at process start: `const logs = []` and nothing printed. -/
def State.init : State := ⟨[], []⟩

/-- The function `log(message, type)`, where `timestamp` is the value of
`new Date().toISOString()` read by the call.  A call that leaves out the
second argument passes `"info"`.  Every call site passes a string for `message` and a
string literal, or nothing, for `type`, so both are strings here. -/
def log (rt : Runtime) (s : State) (timestamp message type : String) : State :=
  let logEntry : LogEntry := ⟨timestamp, message, type⟩
  -- logs.push(logEntry)
  let logs := s.logs ++ [logEntry]
  -- console.log(...)
  let console := s.console ++ ["[" ++ timestamp ++ "] " ++ rt.toUpperCase type ++ ": " ++ message]
  -- if (logs.length > 100) logs.shift()
  let logs := if logs.length > 100 then logs.tail else logs
  ⟨logs, console⟩

/-- The arguments of one call of `log`, with the timestamp the call reads. -/
structure LogCall where
  timestamp : String
  message : String
  type : String
  deriving DecidableEq, Repr

/-- The entry that a call of `log` builds. -/
def LogCall.entry (c : LogCall) : LogEntry := ⟨c.timestamp, c.message, c.type⟩

/-- A finite sequence of calls of `log`, performed in order. -/
def runLogs (rt : Runtime) (s : State) (calls : List LogCall) : State :=
  calls.foldl (fun st c => log rt st c.timestamp c.message c.type) s

/-! ## Constants (`src/index.js`, lines 6-8) -/

/-- The constant `BASE_ID`. -/
def BASE_ID : String := "appEZQLiRm9cfnVkP"

/-- The constant `AIRTABLE_API`. -/
def AIRTABLE_API : String := "https://api.airtable.com/v0"

/-- The template literal with `AIRTABLE_API` and `BASE_ID` that both remote calls use as URL. -/
def tablesUrl : String := AIRTABLE_API ++ "/meta/bases/" ++ BASE_ID ++ "/tables"

/-- The `headers` object of both remote calls.  `AIRTABLE_PAT` is
`process.env.AIRTABLE_PAT`, which is `undefined` (`none`) when the variable is not set;
a template literal prints it as `undefined` then. -/
def requestHeaders (AIRTABLE_PAT : Option String) : List (String × String) :=
  [("Authorization", "Bearer " ++ AIRTABLE_PAT.getD "undefined"),
   ("Content-Type", "application/json")]

/-! ## HTTP and axios data -/

/-- What a handler sends back: the status code and the value passed to `res.json`. -/
structure HttpResponse where
  status : Nat
  body : JsValue

/-- A request handed to axios: `axios.get(url, config)` or `axios.post(url, data, config)`. -/
structure AxiosRequest where
  method : String
  url : String
  data : JsValue
  headers : List (String × String)

/-- The response object of axios, as far as the program reads it. -/
structure AxiosResponse where
  status : Nat
  data : JsValue

/-- A value caught by `catch (error)`: its `message`, and its `response` when the
remote answered (absent for a network failure and for a `TypeError`). -/
structure JsError where
  message : String
  response : Option AxiosResponse

/-- How an awaited axios call settles: resolved with a response, or rejected. -/
abbrev Outcome := Except JsError AxiosResponse

/-- Property read that raises a `TypeError` on `undefined` and `null`. -/
def readProp (rt : Runtime) (v : JsValue) (key : String) : Except JsError JsValue :=
  match v.get key with
  | some x => .ok x
  | none => .error ⟨rt.typeErrorMessage v key, none⟩

/-! ## `GET /logs` (`src/index.js`, lines 39-41) -/

/-- The method `Array.prototype.slice(start)` with one argument. -/
def slice {α : Type} (xs : List α) (start : Int) : List α :=
  let len : Int := xs.length
  let k : Int := if start < 0 then max (len + start) 0 else min start len
  xs.drop k.toNat

/-- The handler of `GET /logs`: `res.json` of an object with `logs: logs.slice(-20)`. -/
def getLogs (s : State) : HttpResponse :=
  ⟨200, .object [("logs", .array ((slice s.logs (-20)).map LogEntry.toJs))]⟩

/-! ## `POST /test` (`src/index.js`, lines 43-69) -/

/-- The `catch` block of `POST /test`; `timestamp` is read by its call of `log`. -/
def postTest_catch (rt : Runtime) (s : State) (timestamp : String) (error : JsError) :
    State × HttpResponse :=
  (log rt s timestamp ("❌ Connection test failed: " ++ error.message) "error",
   ⟨500, .object [("success", .bool false), ("error", .string error.message)]⟩)

/-- The handler of `POST /test` up to its `await`: one call of `log`, then the request. -/
def postTest_send (AIRTABLE_PAT : Option String) (rt : Runtime) (s : State) (t0 : String) :
    State × AxiosRequest :=
  (log rt s t0 "Testing Airtable connection..." "info",
   ⟨"GET", tablesUrl, .undefined, requestHeaders AIRTABLE_PAT⟩)

/-- The handler of `POST /test` from its `await` on; `clock n` is the timestamp read by the
`n`-th call of `log` made from here. -/
def postTest_settle (rt : Runtime) (s : State) (clock : Nat → String) (outcome : Outcome) :
    State × HttpResponse :=
  match outcome with
  | .error error => postTest_catch rt s (clock 0) error
  | .ok response =>
    let s1 := log rt s (clock 0) "✅ Airtable connection successful" "info"
    -- response.data.tables.length
    match (readProp rt response.data "tables").bind (fun tables => readProp rt tables "length") with
    | .error error => postTest_catch rt s1 (clock 1) error
    | .ok existingTables =>
      (s1, ⟨200, .object [("success", .bool true),
        ("message", .string "Connection test successful"),
        ("baseId", .string BASE_ID),
        ("existingTables", existingTables)]⟩)

/-- One run of `POST /test`: `during` are the calls of `log` that other handlers make while
this one awaits the remote. -/
def postTest (AIRTABLE_PAT : Option String) (rt : Runtime) (s : State) (t0 : String)
    (during : List LogCall) (clock : Nat → String) (outcome : Outcome) : State × HttpResponse :=
  postTest_settle rt (runLogs rt (postTest_send AIRTABLE_PAT rt s t0).1 during) clock outcome

/-! ## `POST /create-table` (`src/index.js`, lines 71-233) -/

/-- The constant `tableData` of the `/create-table` handler (lines 75-188). -/
def postCreateTable.tableData : JsValue :=
  .object [
    ("name", .string "Task Lists"),
    ("fields", .array [
      .object [
        ("name", .string "Task Name"),
        ("type", .string "singleLineText")],
      .object [
        ("name", .string "Assigned To"),
        ("type", .string "singleSelect"),
        ("options", .object [
          ("choices", .array [
            .object [("name", .string "Vanessa"), ("color", .string "blueLight2")],
            .object [("name", .string "Blake"), ("color", .string "cyanLight2")],
            .object [("name", .string "Beau"), ("color", .string "tealLight2")],
            .object [("name", .string "Chris"), ("color", .string "greenLight2")],
            .object [("name", .string "Liam"), ("color", .string "yellowLight2")],
            .object [("name", .string "Tevon"), ("color", .string "orangeLight2")]])])],
      .object [
        ("name", .string "Status"),
        ("type", .string "singleSelect"),
        ("options", .object [
          ("choices", .array [
            .object [("name", .string "Not Started"), ("color", .string "grayLight2")],
            .object [("name", .string "In Progress"), ("color", .string "yellowLight2")],
            .object [("name", .string "Review"), ("color", .string "orangeLight2")],
            .object [("name", .string "Completed"), ("color", .string "greenLight2")],
            .object [("name", .string "On Hold"), ("color", .string "redLight2")]])])],
      .object [
        ("name", .string "Priority"),
        ("type", .string "singleSelect"),
        ("options", .object [
          ("choices", .array [
            .object [("name", .string "Low"), ("color", .string "grayLight2")],
            .object [("name", .string "Medium"), ("color", .string "yellowLight2")],
            .object [("name", .string "High"), ("color", .string "orangeLight2")],
            .object [("name", .string "Urgent"), ("color", .string "redLight2")]])])],
      .object [
        ("name", .string "Due Date"),
        ("type", .string "date"),
        ("options", .object [
          ("dateFormat", .object [
            ("name", .string "local")])])],
      .object [
        ("name", .string "Description"),
        ("type", .string "multilineText")],
      .object [
        ("name", .string "Progress %"),
        ("type", .string "number"),
        ("options", .object [
          ("precision", .number 0)])],
      .object [
        ("name", .string "Date Created"),
        ("type", .string "createdTime"),
        ("options", .object [
          ("dateFormat", .object [
            ("name", .string "local")]),
          ("includeTime", .bool true)])],
      .object [
        ("name", .string "Last Modified"),
        ("type", .string "lastModifiedTime"),
        ("options", .object [
          ("dateFormat", .object [
            ("name", .string "local")]),
          ("includeTime", .bool true)])],
      .object [
        ("name", .string "Time Estimate (Hours)"),
        ("type", .string "number"),
        ("options", .object [
          ("precision", .number 1)])],
      .object [
        ("name", .string "Tags"),
        ("type", .string "multipleSelects"),
        ("options", .object [
          ("choices", .array [
            .object [("name", .string "Development"), ("color", .string "blueLight2")],
            .object [("name", .string "Marketing"), ("color", .string "greenLight2")],
            .object [("name", .string "Design"), ("color", .string "purpleLight2")],
            .object [("name", .string "Client Work"), ("color", .string "orangeLight2")],
            .object [("name", .string "Admin"), ("color", .string "grayLight2")],
            .object [("name", .string "Research"), ("color", .string "cyanLight2")],
            .object [("name", .string "Meeting"), ("color", .string "yellowLight2")]])])],
      .object [
        ("name", .string "Notes"),
        ("type", .string "multilineText")]])]

/-- The static `details` object of the success response of `/create-table` (lines 206-219). -/
def postCreateTable.details : JsValue :=
  .object [
    ("assignees", .array [.string "Vanessa", .string "Blake", .string "Beau", .string "Chris",
      .string "Liam", .string "Tevon"]),
    ("statuses", .array [.string "Not Started", .string "In Progress", .string "Review",
      .string "Completed", .string "On Hold"]),
    ("priorities", .array [.string "Low", .string "Medium", .string "High", .string "Urgent"]),
    ("features", .array [
      .string "Task assignments to team members",
      .string "Progress tracking with percentage",
      .string "Due dates and time estimates",
      .string "Priority levels and status tracking",
      .string "Tags for categorization",
      .string "Detailed notes and descriptions",
      .string "Automatic creation and modification timestamps"])]

/-- The `catch` block of `/create-table`; its calls of `log` read `clock i` and `clock (i + 1)`.
The expression `error.response?.data` is `undefined` when there is no response. -/
def postCreateTable_catch (rt : Runtime) (s : State) (clock : Nat → String) (i : Nat)
    (error : JsError) : State × HttpResponse :=
  let s1 := log rt s (clock i) ("❌ Failed to create table: " ++ error.message) "error"
  let s2 :=
    match error.response with
    | some response =>
      log rt s1 (clock (i + 1)) ("API Error: " ++ rt.jsonStringify response.data) "error"
    | none => s1
  (s2, ⟨500, .object [("success", .bool false),
    ("error", .string error.message),
    ("details", match error.response with
      | some response => response.data
      | none => .undefined)]⟩)

/-- The handler of `/create-table` up to its `await`: one call of `log`, then the request
that carries `tableData`. -/
def postCreateTable_send (AIRTABLE_PAT : Option String) (rt : Runtime) (s : State)
    (t0 : String) : State × AxiosRequest :=
  (log rt s t0 "Creating Task Lists table..." "info",
   ⟨"POST", tablesUrl, postCreateTable.tableData, requestHeaders AIRTABLE_PAT⟩)

/-- The handler of `/create-table` from its `await` on; `clock n` is the timestamp read by the
`n`-th call of `log` made from here. -/
def postCreateTable_settle (rt : Runtime) (s : State) (clock : Nat → String)
    (outcome : Outcome) : State × HttpResponse :=
  match outcome with
  | .error error => postCreateTable_catch rt s clock 0 error
  | .ok response =>
    let s1 := log rt s (clock 0) "✅ Task Lists table created successfully!" "info"
    -- the template literal with response.data.id
    match readProp rt response.data "id" with
    | .error error => postCreateTable_catch rt s1 clock 1 error
    | .ok id =>
      let s2 := log rt s1 (clock 1) ("Table ID: " ++ rt.toStr id) "info"
      -- the properties tableId, tableName, fieldsCreated of the object literal
      let props : Except JsError (JsValue × JsValue × JsValue) := do
        let tableId ← readProp rt response.data "id"
        let tableName ← readProp rt response.data "name"
        let fields ← readProp rt response.data "fields"
        let fieldsCreated ← readProp rt fields "length"
        pure (tableId, tableName, fieldsCreated)
      match props with
      | .error error => postCreateTable_catch rt s2 clock 2 error
      | .ok (tableId, tableName, fieldsCreated) =>
        (s2, ⟨200, .object [("success", .bool true),
          ("message", .string "Task Lists table created successfully!"),
          ("tableId", tableId),
          ("tableName", tableName),
          ("fieldsCreated", fieldsCreated),
          ("details", postCreateTable.details)]⟩)

/-- One run of `POST /create-table`: `during` are the calls of `log` that other handlers make
while this one awaits the remote. -/
def postCreateTable (AIRTABLE_PAT : Option String) (rt : Runtime) (s : State) (t0 : String)
    (during : List LogCall) (clock : Nat → String) (outcome : Outcome) : State × HttpResponse :=
  postCreateTable_settle rt (runLogs rt (postCreateTable_send AIRTABLE_PAT rt s t0).1 during)
    clock outcome

/-! ## Startup hook (`src/index.js`, lines 235-366) -/

/-- The constant `tableData` of the callback of `app.listen` (lines 240-353). -/
def onListen.tableData : JsValue :=
  .object [
    ("name", .string "Task Lists"),
    ("fields", .array [
      .object [
        ("name", .string "Task Name"),
        ("type", .string "singleLineText")],
      .object [
        ("name", .string "Assigned To"),
        ("type", .string "singleSelect"),
        ("options", .object [
          ("choices", .array [
            .object [("name", .string "Vanessa"), ("color", .string "blueLight2")],
            .object [("name", .string "Blake"), ("color", .string "cyanLight2")],
            .object [("name", .string "Beau"), ("color", .string "tealLight2")],
            .object [("name", .string "Chris"), ("color", .string "greenLight2")],
            .object [("name", .string "Liam"), ("color", .string "yellowLight2")],
            .object [("name", .string "Tevon"), ("color", .string "orangeLight2")]])])],
      .object [
        ("name", .string "Status"),
        ("type", .string "singleSelect"),
        ("options", .object [
          ("choices", .array [
            .object [("name", .string "Not Started"), ("color", .string "grayLight2")],
            .object [("name", .string "In Progress"), ("color", .string "yellowLight2")],
            .object [("name", .string "Review"), ("color", .string "orangeLight2")],
            .object [("name", .string "Completed"), ("color", .string "greenLight2")],
            .object [("name", .string "On Hold"), ("color", .string "redLight2")]])])],
      .object [
        ("name", .string "Priority"),
        ("type", .string "singleSelect"),
        ("options", .object [
          ("choices", .array [
            .object [("name", .string "Low"), ("color", .string "grayLight2")],
            .object [("name", .string "Medium"), ("color", .string "yellowLight2")],
            .object [("name", .string "High"), ("color", .string "orangeLight2")],
            .object [("name", .string "Urgent"), ("color", .string "redLight2")]])])],
      .object [
        ("name", .string "Due Date"),
        ("type", .string "date"),
        ("options", .object [
          ("dateFormat", .object [
            ("name", .string "local")])])],
      .object [
        ("name", .string "Description"),
        ("type", .string "multilineText")],
      .object [
        ("name", .string "Progress %"),
        ("type", .string "number"),
        ("options", .object [
          ("precision", .number 0)])],
      .object [
        ("name", .string "Date Created"),
        ("type", .string "createdTime"),
        ("options", .object [
          ("dateFormat", .object [
            ("name", .string "local")]),
          ("includeTime", .bool true)])],
      .object [
        ("name", .string "Last Modified"),
        ("type", .string "lastModifiedTime"),
        ("options", .object [
          ("dateFormat", .object [
            ("name", .string "local")]),
          ("includeTime", .bool true)])],
      .object [
        ("name", .string "Time Estimate (Hours)"),
        ("type", .string "number"),
        ("options", .object [
          ("precision", .number 1)])],
      .object [
        ("name", .string "Tags"),
        ("type", .string "multipleSelects"),
        ("options", .object [
          ("choices", .array [
            .object [("name", .string "Development"), ("color", .string "blueLight2")],
            .object [("name", .string "Marketing"), ("color", .string "greenLight2")],
            .object [("name", .string "Design"), ("color", .string "purpleLight2")],
            .object [("name", .string "Client Work"), ("color", .string "orangeLight2")],
            .object [("name", .string "Admin"), ("color", .string "grayLight2")],
            .object [("name", .string "Research"), ("color", .string "cyanLight2")],
            .object [("name", .string "Meeting"), ("color", .string "yellowLight2")]])])],
      .object [
        ("name", .string "Notes"),
        ("type", .string "multilineText")]])]

/-- The callback of `app.listen` up to its `await`: one line on the console, then the
request that carries `tableData`. -/
def onListen_send (AIRTABLE_PAT : Option String) (s : State) : State × AxiosRequest :=
  (⟨s.logs, s.console ++ ["Server started. Creating Task Lists table..."]⟩,
   ⟨"POST", tablesUrl, onListen.tableData, requestHeaders AIRTABLE_PAT⟩)

/-- The callback of `app.listen` from its `await` on; `timestamp` is read by its call of `log`. -/
def onListen_settle (rt : Runtime) (s : State) (timestamp : String) (outcome : Outcome) : State :=
  match outcome with
  | .ok _ => log rt s timestamp "✅ Task Lists table created automatically on startup!" "info"
  | .error error => log rt s timestamp ("❌ Auto-creation failed: " ++ error.message) "error"

/-! ## Reading a Schema Descriptor -/

/-- The elements of the `fields` array of a table descriptor. -/
def schemaFields (table : JsValue) : List JsValue :=
  match table.get "fields" with
  | some (.array fields) => fields
  | _ => []

/-- The `name` property of an object, when it is a string. -/
def nameOf (v : JsValue) : Option String :=
  match v.get "name" with
  | some (.string s) => some s
  | _ => none

/-- The `name` of the table of a descriptor. -/
def tableName (table : JsValue) : Option String := nameOf table

/-- The `name` of every field of a descriptor, in order. -/
def fieldNames (table : JsValue) : List (Option String) :=
  (schemaFields table).map nameOf

/-- The elements of `options.choices` of a field; empty when the field has no choices. -/
def fieldChoices (field : JsValue) : List JsValue :=
  match (field.get "options").bind (fun options => options.get "choices") with
  | some (.array choices) => choices
  | _ => []

/-- The choices of the first field called `name` in a descriptor. -/
def choicesOf (table : JsValue) (name : String) : List JsValue :=
  match (schemaFields table).find? (fun field => nameOf field == some name) with
  | some field => fieldChoices field
  | none => []

/-- The `name` of every choice of the field called `name`, in order. -/
def choiceNames (table : JsValue) (name : String) : List (Option String) :=
  (choicesOf table name).map nameOf

/-- The fields of a descriptor whose type tag is `singleSelect` or `multipleSelects`. -/
def selectFields (table : JsValue) : List JsValue :=
  (schemaFields table).filter (fun field =>
    match field.get "type" with
    | some (.string t) => t == "singleSelect" || t == "multipleSelects"
    | _ => false)

/-! ## Reading an HTTP response -/

/-- The elements of the `logs` array of a payload of `GET /logs`. -/
def payloadLogs (r : HttpResponse) : List JsValue :=
  match r.body.get "logs" with
  | some (.array entries) => entries
  | _ => []

/-- The JSON object `body` exposes the value `v`: one of its properties holds `v`. -/
def Exposes (body v : JsValue) : Prop := ∃ key : String, body.get key = some v

/-! ## Sample data for the instances below -/

/-- A runtime whose built-ins print fixed text; the theorems hold for every runtime. -/
def sampleRuntime : Runtime :=
  ⟨String.toUpper, fun _ => "<json>", fun _ => "<value>", fun _ key => "cannot read " ++ key⟩

/-- A clock whose `n`-th reading is one of three fixed instants. -/
def sampleClock (n : Nat) : String :=
  if n = 0 then "2025-09-04T06:10:59.000Z"
  else if n = 1 then "2025-09-04T06:10:59.001Z" else "2025-09-04T06:10:59.002Z"

/-- A buffer that is full: one hundred entries. -/
def fullState : State :=
  ⟨List.replicate 100 ⟨"2025-09-04T06:10:58.000Z", "Testing Airtable connection...", "info"⟩, []⟩

/-- Three calls of `log`. -/
def sampleCalls : List LogCall :=
  [⟨"2025-09-04T06:10:59.000Z", "Testing Airtable connection...", "info"⟩,
   ⟨"2025-09-04T06:10:59.001Z", "❌ Connection test failed: timeout", "error"⟩,
   ⟨"2025-09-04T06:10:59.002Z", "Creating Task Lists table...", "info"⟩]

/-- The body of a rejected create-table call. -/
def sampleErrorBody : JsValue :=
  .object [("error", .object [("type", .string "INVALID_REQUEST_UNKNOWN"),
    ("message", .string "Invalid request")])]

/-- A rejection of axios that carries the response of the remote. -/
def sampleError : JsError :=
  ⟨"Request failed with status code 422", some ⟨422, sampleErrorBody⟩⟩

/-- A list-tables body with three tables. -/
def sampleTables : List JsValue :=
  [.object [("id", .string "tblA")], .object [("id", .string "tblB")],
   .object [("id", .string "tblC")]]


/-! ## Helper lemmas on the log buffer -/

theorem log_logs (rt : Runtime) (s : State) (ts m ty : String) :
    (log rt s ts m ty).logs =
      if (s.logs ++ [(⟨ts, m, ty⟩ : LogEntry)]).length > 100
      then (s.logs ++ [(⟨ts, m, ty⟩ : LogEntry)]).tail
      else s.logs ++ [(⟨ts, m, ty⟩ : LogEntry)] := rfl

theorem log_logs_drop (rt : Runtime) (s : State) (ts m ty : String)
    (h : s.logs.length ≤ 100) :
    (log rt s ts m ty).logs =
      (s.logs ++ [(⟨ts, m, ty⟩ : LogEntry)]).drop (s.logs.length + 1 - 100) := by
  rw [log_logs]
  by_cases hfull : (s.logs ++ [(⟨ts, m, ty⟩ : LogEntry)]).length > 100
  · rw [if_pos hfull]
    simp only [List.length_append, List.length_singleton] at hfull
    have hd : s.logs.length + 1 - 100 = 1 := by omega
    rw [hd, List.drop_one]
  · rw [if_neg hfull]
    simp only [List.length_append, List.length_singleton] at hfull
    have hd : s.logs.length + 1 - 100 = 0 := by omega
    rw [hd, List.drop_zero]

theorem log_logs_length_le (rt : Runtime) (s : State) (ts m ty : String) :
    (log rt s ts m ty).logs.length ≤ 100 ∨
      (log rt s ts m ty).logs.length ≤ s.logs.length := by
  rw [log_logs]
  by_cases hfull : (s.logs ++ [(⟨ts, m, ty⟩ : LogEntry)]).length > 100
  · rw [if_pos hfull]
    right
    simp
  · rw [if_neg hfull]
    left
    omega

theorem log_logs_length_bound (rt : Runtime) (s : State) (ts m ty : String)
    (h : s.logs.length ≤ 100) : (log rt s ts m ty).logs.length ≤ 100 := by
  rcases log_logs_length_le rt s ts m ty with h1 | h1
  · exact h1
  · exact le_trans h1 h

theorem runLogs_nil (rt : Runtime) (s : State) : runLogs rt s [] = s := rfl

theorem runLogs_cons (rt : Runtime) (s : State) (c : LogCall) (cs : List LogCall) :
    runLogs rt s (c :: cs) = runLogs rt (log rt s c.timestamp c.message c.type) cs := rfl

theorem runLogs_length_bound (rt : Runtime) (calls : List LogCall) :
    ∀ s : State, s.logs.length ≤ 100 → (runLogs rt s calls).logs.length ≤ 100 := by
  induction calls with
  | nil => intro s h; exact h
  | cons c cs ih =>
    intro s h
    rw [runLogs_cons]
    exact ih _ (log_logs_length_bound rt s _ _ _ h)

theorem runLogs_logs (rt : Runtime) (calls : List LogCall) :
    ∀ s : State, s.logs.length ≤ 100 →
      (runLogs rt s calls).logs =
        (s.logs ++ calls.map LogCall.entry).drop (s.logs.length + calls.length - 100) := by
  induction calls with
  | nil =>
    intro s h
    have hd : s.logs.length + ([] : List LogCall).length - 100 = 0 := by
      simp only [List.length_nil]; omega
    rw [hd, runLogs_nil]
    simp
  | cons c cs ih =>
    intro s h
    rw [runLogs_cons, ih _ (log_logs_length_bound rt s _ _ _ h),
      log_logs_drop rt s _ _ _ h]
    have hle : s.logs.length + 1 - 100 ≤ (s.logs ++ [c.entry]).length := by
      simp only [List.length_append, List.length_singleton]; omega
    have happ : List.drop (s.logs.length + 1 - 100) (s.logs ++ [c.entry]) ++ cs.map LogCall.entry
        = List.drop (s.logs.length + 1 - 100) (s.logs ++ c.entry :: cs.map LogCall.entry) := by
      rw [← List.drop_append_of_le_length hle]
      simp
    show List.drop _ (List.drop (s.logs.length + 1 - 100) (s.logs ++ [c.entry])
        ++ cs.map LogCall.entry) = _
    rw [happ, List.drop_drop]
    have hlen : (List.drop (s.logs.length + 1 - 100) (s.logs ++ [c.entry])).length
        = s.logs.length + 1 - (s.logs.length + 1 - 100) := by
      rw [List.length_drop, List.length_append, List.length_singleton]
    have hnum : s.logs.length + 1 - 100 +
        ((List.drop (s.logs.length + 1 - 100) (s.logs ++ [c.entry])).length + cs.length - 100)
        = s.logs.length + (c :: cs).length - 100 := by
      rw [hlen, List.length_cons]
      omega
    rw [List.map_cons]
    exact congrArg (fun n => List.drop n (s.logs ++ c.entry :: cs.map LogCall.entry)) hnum

theorem slice_neg20 {α : Type} (xs : List α) : slice xs (-20) = xs.drop (xs.length - 20) := by
  unfold slice
  have hk : (if (-20 : Int) < 0 then max ((xs.length : Int) + -20) 0
      else min (-20) (xs.length : Int)).toNat = xs.length - 20 := by
    rw [if_pos (by decide)]
    omega
  exact congrArg (fun n => List.drop n xs) hk

theorem log_getLast (rt : Runtime) (s : State) (ts m ty : String) :
    (log rt s ts m ty).logs.getLast? = some ⟨ts, m, ty⟩ := by
  rw [log_logs]
  split
  · cases hl : s.logs with
    | nil => rename_i h; rw [hl] at h; simp at h
    | cons a l => simp
  · simp

theorem runLogs_init_logs (rt : Runtime) (calls : List LogCall) :
    (runLogs rt State.init calls).logs =
      (calls.map LogCall.entry).drop (calls.length - 100) := by
  have h := runLogs_logs rt calls State.init (by decide)
  have h0 : State.init.logs = [] := rfl
  rw [h0] at h
  simpa using h

/-! ## The log buffer -/

/-- C1: starting from the empty buffer, after any finite sequence of calls of `log`, with any
timestamps, messages and types, the buffer `logs` holds at most 100 entries. -/
theorem logs_at_most_100 (rt : Runtime) (calls : List LogCall) :
    (runLogs rt State.init calls).logs.length ≤ 100 :=
  runLogs_length_bound rt calls State.init (by decide)

/-- C2: `log` appends at the end and evicts the oldest entry.  On a buffer of at most 100
entries, the new buffer is the old one followed by the new entry when the old length is
below 100, and the old one without its first entry followed by the new entry when the old
length is exactly 100.  After `k` calls from the empty buffer, the buffer is the list of the
last `min k 100` appended entries, in the order of the calls. -/
theorem log_fifo_eviction (rt : Runtime) (s : State) (ts m ty : String) (calls : List LogCall)
    (h : s.logs.length ≤ 100) :
    (s.logs.length < 100 → (log rt s ts m ty).logs = s.logs ++ [⟨ts, m, ty⟩]) ∧
    (s.logs.length = 100 → (log rt s ts m ty).logs = s.logs.tail ++ [⟨ts, m, ty⟩]) ∧
    (runLogs rt State.init calls).logs =
      (calls.map LogCall.entry).drop (calls.length - min calls.length 100) ∧
    (runLogs rt State.init calls).logs.length = min calls.length 100 := by
  refine ⟨?_, ?_, ?_, ?_⟩
  · intro hlt
    rw [log_logs, if_neg]
    simp only [List.length_append, List.length_singleton]
    omega
  · intro heq
    rw [log_logs, if_pos]
    · cases hl : s.logs with
      | nil => rw [hl] at heq; simp at heq
      | cons a l => simp
    · simp only [List.length_append, List.length_singleton]
      omega
  · rw [runLogs_init_logs]
    have hk : calls.length - min calls.length 100 = calls.length - 100 := by omega
    rw [hk]
  · rw [runLogs_init_logs, List.length_drop, List.length_map]
    omega

/-- An instance of C2: a full buffer of one hundred entries, one more entry, and three calls
from the empty buffer. -/
theorem log_fifo_eviction_witness :
    fullState.logs.length ≤ 100 ∧
    (log sampleRuntime fullState "2025-09-04T06:10:59.000Z" "Creating Task Lists table..."
        "info").logs =
      fullState.logs.tail ++
        [⟨"2025-09-04T06:10:59.000Z", "Creating Task Lists table...", "info"⟩] ∧
    (runLogs sampleRuntime State.init sampleCalls).logs = sampleCalls.map LogCall.entry :=
  ⟨by decide,
   (log_fifo_eviction sampleRuntime fullState "2025-09-04T06:10:59.000Z"
      "Creating Task Lists table..." "info" sampleCalls (by decide)).2.1 (by decide),
   (log_fifo_eviction sampleRuntime fullState "2025-09-04T06:10:59.000Z"
      "Creating Task Lists table..." "info" sampleCalls (by decide)).2.2.1⟩

/-- C3: after `k` calls of `log` from the empty buffer, the `logs` list of the payload of
`GET /logs` is the list of the last `min k 20` appended entries, in the order of the calls
with the newest last; it has fewer than 20 entries exactly when `k < 20`; and the handler
always answers, with status 200. -/
theorem getLogs_last_20 (rt : Runtime) (calls : List LogCall) :
    payloadLogs (getLogs (runLogs rt State.init calls)) =
      ((calls.map LogCall.entry).drop (calls.length - min calls.length 20)).map LogEntry.toJs ∧
    (payloadLogs (getLogs (runLogs rt State.init calls))).length = min calls.length 20 ∧
    ((payloadLogs (getLogs (runLogs rt State.init calls))).length < 20 ↔ calls.length < 20) ∧
    (getLogs (runLogs rt State.init calls)).status = 200 := by
  have hp : payloadLogs (getLogs (runLogs rt State.init calls)) =
      ((calls.map LogCall.entry).drop (calls.length - min calls.length 20)).map
        LogEntry.toJs := by
    show (slice (runLogs rt State.init calls).logs (-20)).map LogEntry.toJs = _
    rw [slice_neg20, runLogs_init_logs, List.drop_drop, List.length_drop, List.length_map]
    have hk : calls.length - 100 + (calls.length - (calls.length - 100) - 20)
        = calls.length - min calls.length 20 := by omega
    rw [hk]
  have hlen : (payloadLogs (getLogs (runLogs rt State.init calls))).length
      = min calls.length 20 := by
    rw [hp, List.length_map, List.length_drop, List.length_map]
    omega
  refine ⟨hp, hlen, ?_, rfl⟩
  rw [hlen]
  omega

/-! ## The Schema Descriptor -/

/-- C4, as stated: the descriptor that the `/create-table` handler sends does not have
exactly 11 fields. -/
theorem createTable_fields_not_11 :
    ¬ ((schemaFields
      (postCreateTable_send none sampleRuntime State.init "2025-09-04T06:10:59.000Z").2.data).length
        = 11) := by
  decide

/-- C4, amended: the descriptor that the `/create-table` handler sends to the remote contains
exactly 12 fields, whatever the token, the state and the time of the request. -/
theorem createTable_fields_12 (AIRTABLE_PAT : Option String) (rt : Runtime) (s : State)
    (t0 : String) :
    (schemaFields (postCreateTable_send AIRTABLE_PAT rt s t0).2.data).length = 12 := by
  show (schemaFields postCreateTable.tableData).length = 12
  decide

/-- C5: the names of the fields of the descriptor sent by `/create-table`, read in order, are
Task Name, Assigned To, Status, Priority, Due Date, Description, Progress %, Date Created,
Last Modified, Time Estimate (Hours), Tags, Notes; its field `Assigned To` has exactly 6
choices and its field `Status` exactly 5. -/
theorem createTable_field_names (AIRTABLE_PAT : Option String) (rt : Runtime) (s : State)
    (t0 : String) :
    fieldNames (postCreateTable_send AIRTABLE_PAT rt s t0).2.data =
      [some "Task Name", some "Assigned To", some "Status", some "Priority", some "Due Date",
       some "Description", some "Progress %", some "Date Created", some "Last Modified",
       some "Time Estimate (Hours)", some "Tags", some "Notes"] ∧
    (choicesOf (postCreateTable_send AIRTABLE_PAT rt s t0).2.data "Assigned To").length = 6 ∧
    (choicesOf (postCreateTable_send AIRTABLE_PAT rt s t0).2.data "Status").length = 5 := by
  show fieldNames postCreateTable.tableData = _ ∧
    (choicesOf postCreateTable.tableData "Assigned To").length = 6 ∧
    (choicesOf postCreateTable.tableData "Status").length = 5
  decide

/-- C6: the descriptor that the startup hook sends is the one that the `/create-table`
handler sends: the two values are equal, hence the table name, the fields, their order,
names, type tags and options are the same. -/
theorem startup_descriptor_eq_createTable (pat1 pat2 : Option String) (rt : Runtime)
    (s1 s2 : State) (t0 : String) :
    (onListen_send pat1 s1).2.data = (postCreateTable_send pat2 rt s2 t0).2.data ∧
    tableName (onListen_send pat1 s1).2.data = some "Task Lists" ∧
    tableName (postCreateTable_send pat2 rt s2 t0).2.data = some "Task Lists" :=
  ⟨rfl, rfl, rfl⟩

/-- C7: in the descriptor of the `/create-table` handler and in the one of the startup hook,
every field has a name and the field names are pairwise distinct; the select fields are
Assigned To, Status, Priority and Tags; and within each of them every choice has a name and
the choice names are pairwise distinct. -/
theorem descriptor_names_distinct (pat : Option String) (rt : Runtime) (s : State)
    (t0 : String) :
    ((fieldNames (postCreateTable_send pat rt s t0).2.data).Nodup ∧
      none ∉ fieldNames (postCreateTable_send pat rt s t0).2.data ∧
      (selectFields (postCreateTable_send pat rt s t0).2.data).map nameOf =
        [some "Assigned To", some "Status", some "Priority", some "Tags"] ∧
      (choiceNames (postCreateTable_send pat rt s t0).2.data "Assigned To").Nodup ∧
      none ∉ choiceNames (postCreateTable_send pat rt s t0).2.data "Assigned To" ∧
      (choiceNames (postCreateTable_send pat rt s t0).2.data "Status").Nodup ∧
      none ∉ choiceNames (postCreateTable_send pat rt s t0).2.data "Status" ∧
      (choiceNames (postCreateTable_send pat rt s t0).2.data "Priority").Nodup ∧
      none ∉ choiceNames (postCreateTable_send pat rt s t0).2.data "Priority" ∧
      (choiceNames (postCreateTable_send pat rt s t0).2.data "Tags").Nodup ∧
      none ∉ choiceNames (postCreateTable_send pat rt s t0).2.data "Tags") ∧
    ((fieldNames (onListen_send pat s).2.data).Nodup ∧
      none ∉ fieldNames (onListen_send pat s).2.data ∧
      (selectFields (onListen_send pat s).2.data).map nameOf =
        [some "Assigned To", some "Status", some "Priority", some "Tags"] ∧
      (choiceNames (onListen_send pat s).2.data "Assigned To").Nodup ∧
      none ∉ choiceNames (onListen_send pat s).2.data "Assigned To" ∧
      (choiceNames (onListen_send pat s).2.data "Status").Nodup ∧
      none ∉ choiceNames (onListen_send pat s).2.data "Status" ∧
      (choiceNames (onListen_send pat s).2.data "Priority").Nodup ∧
      none ∉ choiceNames (onListen_send pat s).2.data "Priority" ∧
      (choiceNames (onListen_send pat s).2.data "Tags").Nodup ∧
      none ∉ choiceNames (onListen_send pat s).2.data "Tags") := by
  have h1 : (postCreateTable_send pat rt s t0).2.data = postCreateTable.tableData := rfl
  have h2 : (onListen_send pat s).2.data = onListen.tableData := rfl
  rw [h1, h2]
  refine ⟨⟨?_, ?_, ?_, ?_, ?_, ?_, ?_, ?_, ?_, ?_, ?_⟩, ⟨?_, ?_, ?_, ?_, ?_, ?_, ?_, ?_, ?_, ?_, ?_⟩⟩
  all_goals decide

/-! ## The handlers that call the remote -/

theorem postCreateTable_error (pat : Option String) (rt : Runtime) (s : State) (t0 : String)
    (during : List LogCall) (clock : Nat → String) (error : JsError) :
    postCreateTable pat rt s t0 during clock (.error error) =
      postCreateTable_catch rt (runLogs rt (postCreateTable_send pat rt s t0).1 during)
        clock 0 error := rfl

theorem postTest_error (pat : Option String) (rt : Runtime) (s : State) (t0 : String)
    (during : List LogCall) (clock : Nat → String) (error : JsError) :
    postTest pat rt s t0 during clock (.error error) =
      postTest_catch rt (runLogs rt (postTest_send pat rt s t0).1 during) (clock 0) error := rfl

/-- C8: when the remote create-table call fails with a response, whatever the error message
and the response body, `POST /create-table` answers with status 500 and a JSON object whose
`success` is false, whose `error` is the error message and whose `details` is the response
body of the remote, unchanged; when the failure carries no response, the status is 500,
`success` is false, `error` is the message and `details` is `undefined`. -/
theorem createTable_failure_response (pat : Option String) (rt : Runtime) (s : State)
    (t0 : String) (during : List LogCall) (clock : Nat → String) (message : String)
    (status : Nat) (body : JsValue) :
    (postCreateTable pat rt s t0 during clock (.error ⟨message, some ⟨status, body⟩⟩)).2.status
      = 500 ∧
    (postCreateTable pat rt s t0 during clock (.error ⟨message, some ⟨status, body⟩⟩)).2.body
      = .object [("success", .bool false), ("error", .string message), ("details", body)] ∧
    ((postCreateTable pat rt s t0 during clock
      (.error ⟨message, some ⟨status, body⟩⟩)).2.body.get "success" = some (.bool false)) ∧
    ((postCreateTable pat rt s t0 during clock
      (.error ⟨message, some ⟨status, body⟩⟩)).2.body.get "error" = some (.string message)) ∧
    ((postCreateTable pat rt s t0 during clock
      (.error ⟨message, some ⟨status, body⟩⟩)).2.body.get "details" = some body) ∧
    (postCreateTable pat rt s t0 during clock (.error ⟨message, none⟩)).2.status = 500 ∧
    ((postCreateTable pat rt s t0 during clock (.error ⟨message, none⟩)).2.body.get "success"
      = some (.bool false)) ∧
    ((postCreateTable pat rt s t0 during clock (.error ⟨message, none⟩)).2.body.get "error"
      = some (.string message)) ∧
    ((postCreateTable pat rt s t0 during clock (.error ⟨message, none⟩)).2.body.get "details"
      = some .undefined) :=
  ⟨rfl, rfl, rfl, rfl, rfl, rfl, rfl, rfl, rfl⟩

/-- C9: when the remote list-tables call succeeds with a body that is an object whose
`tables` is a list, `POST /test` answers with status 200 and a JSON object whose `success`
is true, whose `baseId` is the fixed base id and whose `existingTables` is the length of
that list. -/
theorem test_success_response (pat : Option String) (rt : Runtime) (s : State) (t0 : String)
    (during : List LogCall) (clock : Nat → String) (status : Nat)
    (props : List (String × JsValue)) (tables : List JsValue)
    (h : props.lookup "tables" = some (.array tables)) :
    (postTest pat rt s t0 during clock (.ok ⟨status, .object props⟩)).2.status = 200 ∧
    ((postTest pat rt s t0 during clock (.ok ⟨status, .object props⟩)).2.body.get "success"
      = some (.bool true)) ∧
    ((postTest pat rt s t0 during clock (.ok ⟨status, .object props⟩)).2.body.get "baseId"
      = some (.string "appEZQLiRm9cfnVkP")) ∧
    ((postTest pat rt s t0 during clock (.ok ⟨status, .object props⟩)).2.body.get
      "existingTables" = some (.number tables.length)) := by
  have hrun : (postTest pat rt s t0 during clock (.ok ⟨status, .object props⟩)).2 =
      ⟨200, .object [("success", .bool true),
        ("message", .string "Connection test successful"),
        ("baseId", .string BASE_ID),
        ("existingTables", .number tables.length)]⟩ := by
    simp [postTest, postTest_settle, readProp, JsValue.get, h, Except.bind]
  rw [hrun]
  exact ⟨rfl, rfl, rfl, rfl⟩

/-- An instance of C9: the remote answers 200 with three tables, and `existingTables` is 3. -/
theorem test_success_response_witness :
    List.lookup "tables" [("tables", JsValue.array sampleTables)]
      = some (.array sampleTables) ∧
    (postTest none sampleRuntime State.init "2025-09-04T06:10:58.000Z" [] sampleClock
      (.ok ⟨200, .object [("tables", .array sampleTables)]⟩)).2.status = 200 ∧
    ((postTest none sampleRuntime State.init "2025-09-04T06:10:58.000Z" [] sampleClock
      (.ok ⟨200, .object [("tables", .array sampleTables)]⟩)).2.body.get "existingTables"
      = some (.number 3)) :=
  ⟨rfl,
   (test_success_response none sampleRuntime State.init "2025-09-04T06:10:58.000Z" []
      sampleClock 200 [("tables", .array sampleTables)] sampleTables rfl).1,
   (test_success_response none sampleRuntime State.init "2025-09-04T06:10:58.000Z" []
      sampleClock 200 [("tables", .array sampleTables)] sampleTables rfl).2.2.2⟩

/-- C10, as stated: `POST /test` fails to expose the response body of the remote.  The remote
rejects list-tables with status 422 and a JSON body, and no property of the 500 response of
`POST /test` holds that body. -/
theorem test_failure_hides_remote_body :
    ¬ Exposes (postTest none sampleRuntime State.init "2025-09-04T06:10:58.000Z" [] sampleClock
      (.error sampleError)).2.body sampleErrorBody := by
  rintro ⟨key, hkey⟩
  have hbody : (postTest none sampleRuntime State.init "2025-09-04T06:10:58.000Z" [] sampleClock
      (.error sampleError)).2.body =
      .object [("success", .bool false), ("error", .string sampleError.message)] := rfl
  rw [hbody] at hkey
  simp only [JsValue.get, List.lookup, Option.some.injEq] at hkey
  by_cases h1 : key = "success"
  · subst h1
    simp [sampleErrorBody] at hkey
  · by_cases h2 : key = "error"
    · subst h2
      simp [sampleErrorBody] at hkey
    · have e1 : (key == "success") = false := by simpa using h1
      have e2 : (key == "error") = false := by simpa using h2
      simp [e1, e2, sampleErrorBody] at hkey

/-- C10, amended: for each of the two handlers that call the remote and for every failed
outcome of that call, the handler ends by appending a log entry of level `error` and answers
with status 500 and a JSON object that exposes the error message.  `POST /create-table`
exposes the response body of the remote whenever the failure carries one; the response of
`POST /test` holds `success` and `error` only. -/
theorem remote_failure_logged_and_500 (pat : Option String) (rt : Runtime) (s : State)
    (t0 : String) (during : List LogCall) (clock : Nat → String) (message : String)
    (response : Option AxiosResponse) (status : Nat) (body : JsValue) :
    -- POST /test
    (postTest pat rt s t0 during clock (.error ⟨message, response⟩)).1.logs.getLast? =
      some ⟨clock 0, "❌ Connection test failed: " ++ message, "error"⟩ ∧
    (postTest pat rt s t0 during clock (.error ⟨message, response⟩)).2.status = 500 ∧
    Exposes (postTest pat rt s t0 during clock (.error ⟨message, response⟩)).2.body
      (.string message) ∧
    (postTest pat rt s t0 during clock (.error ⟨message, response⟩)).2.body =
      .object [("success", .bool false), ("error", .string message)] ∧
    -- POST /create-table
    (postCreateTable pat rt s t0 during clock (.error ⟨message, none⟩)).1.logs.getLast? =
      some ⟨clock 0, "❌ Failed to create table: " ++ message, "error"⟩ ∧
    (postCreateTable pat rt s t0 during clock
        (.error ⟨message, some ⟨status, body⟩⟩)).1.logs.getLast? =
      some ⟨clock 1, "API Error: " ++ rt.jsonStringify body, "error"⟩ ∧
    (postCreateTable pat rt s t0 during clock (.error ⟨message, response⟩)).2.status = 500 ∧
    Exposes (postCreateTable pat rt s t0 during clock (.error ⟨message, response⟩)).2.body
      (.string message) ∧
    Exposes (postCreateTable pat rt s t0 during clock
      (.error ⟨message, some ⟨status, body⟩⟩)).2.body body := by
  refine ⟨?_, rfl, ⟨"error", rfl⟩, rfl, ?_, ?_, rfl, ⟨"error", rfl⟩, ⟨"details", rfl⟩⟩
  · rw [postTest_error]
    exact log_getLast rt _ _ _ _
  · rw [postCreateTable_error]
    exact log_getLast rt _ _ _ _
  · rw [postCreateTable_error]
    exact log_getLast rt _ _ _ _

end TaskLists
